import Mathlib

/-!
Verification of the turbofan RUL (remaining useful life) predictive-maintenance
pipeline: a shallow embedding, in Lean, of the feature-engineering, drift-monitoring
and serving logic of the repository (api/main.py, src/data_preprocessing.py,
steps/clean_data.py), together with theorems settling the specified properties.

Floating-point values are embedded as rationals (ℚ): every arithmetic operation
involved (+, -, *, /, abs, min, max, comparisons) is exact at the embedded level,
and fractional constants are written with mkRat so that they evaluate.
Python dictionaries / pandas single-row DataFrames are embedded as association
lists from column name to value; pandas per-column operations become list
operations on those.
-/

namespace Turbofan

/-- Sensors dropped during training because they are constant
(api/main.py line 36, data_preprocessing.py line 25). -/
def DROPPED_SENSORS : List String := ["s_1", "s_5", "s_10", "s_16", "s_18", "s_19"]

/-- The 14 key sensors used for feature engineering
(api/main.py lines 39-40, data_preprocessing.py lines 28-29). -/
def KEY_SENSORS : List String :=
  ["s_2", "s_3", "s_4", "s_7", "s_8", "s_9", "s_11", "s_12",
   "s_13", "s_14", "s_15", "s_17", "s_20", "s_21"]

/-- Baseline statistics from the FD001 training data (api/main.py lines 54-60).
Fractional literals of the source are written with mkRat (642.6 = mkRat 6426 10). -/
def BASELINE_STATS : List (String × ℚ) :=
  [("setting_1", mkRat (-1) 10000), ("setting_2", mkRat 2 10000), ("setting_3", 100),
   ("s_2", mkRat 6426 10), ("s_3", mkRat 15914 10), ("s_4", mkRat 14071 10),
   ("s_6", mkRat 216 10),
   ("s_7", mkRat 5549 10), ("s_8", mkRat 23881 10), ("s_9", mkRat 90593 10),
   ("s_11", mkRat 475 10),
   ("s_12", mkRat 5223 10), ("s_13", mkRat 23881 10), ("s_14", mkRat 81405 10),
   ("s_15", mkRat 844 100),
   ("s_17", 391), ("s_20", mkRat 391 10), ("s_21", mkRat 2342 100)]

/-- Drift detection threshold, 20% deviation (api/main.py line 63: 0.20). -/
def DRIFT_THRESHOLD : ℚ := mkRat 20 100

/-- Capacity of the in-memory window of recent predictions
(api/main.py line 51: deque(maxlen=100)). -/
def DRIFT_WINDOW_CAPACITY : Nat := 100

/-! ## Serving: clamping and health-status banding (api/main.py lines 274-288) -/

/-- Clamp of the raw regressor output into [0, 125]
(api/main.py line 277: max(0.0, min(125.0, float(rul_pred)))). -/
def clamp_rul (x : ℚ) : ℚ := max 0 (min 125 x)

/-- Health-status banding of the clamped RUL (api/main.py lines 280-288):
below 30 Critical, else below 80 Warning, else Healthy. -/
def rul_status (x : ℚ) : String :=
  if x < 30 then "Critical" else if x < 80 then "Warning" else "Healthy"

/-! ## Drift window (api/main.py lines 51, 296, 434-441) -/

/-- One record() call on the deque of recent predictions
(api/main.py line 296: recent_predictions.append(input_record) on a
deque(maxlen=100)): the entry is appended and, when the window would exceed
the capacity, oldest entries are evicted from the front. -/
def record {α : Type} (w : List α) (x : α) : List α :=
  let w2 := w ++ [x]
  w2.drop (w2.length - DRIFT_WINDOW_CAPACITY)

/-- Reset of the monitoring window (api/main.py lines 434-441:
recent_predictions.clear()). -/
def reset_monitoring {α : Type} (_w : List α) : List α := []

/-! ## RUL labeling (data_preprocessing.py lines 54-87, steps/clean_data.py lines 46-52) -/

/-- One row of the raw frame, as far as RUL labeling is concerned:
an engine unit number and a cycle index. -/
structure Reading where
  unit : Nat
  cycle : Nat
deriving DecidableEq

/-- Cycles observed for a unit, in frame order (the groupby in
data_preprocessing.py line 67 collects exactly the rows of that unit). -/
def cyclesOf (df : List Reading) (u : Nat) : List Nat :=
  (df.filter (fun r => r.unit == u)).map Reading.cycle

/-- Greatest cycle observed for a unit: transform max of the groupby
(data_preprocessing.py line 67). -/
def max_cycle (df : List Reading) (u : Nat) : Nat :=
  (cyclesOf df u).foldl max 0

/-- RUL of a reading: max cycle of its unit minus its own cycle
(data_preprocessing.py line 67, clean_data.py line 47). The subtraction is
over ℤ so that nonnegativity is a statement, not an artifact of the type. -/
def calculate_rul (df : List Reading) (r : Reading) : Int :=
  (max_cycle df r.unit : Int) - (r.cycle : Int)

/-- RUL clipping at the cap (data_preprocessing.py line 86: clip(upper=cap)). -/
def clip_rul (cap : Int) (x : Int) : Int := min x cap

/-! ## Rolling-window features (data_preprocessing.py lines 90-130,
steps/clean_data.py lines 60-70) -/

/-- Rolling window size (data_preprocessing.py line 22). -/
def ROLLING_WINDOW : Nat := 5

/-- Sensor values of one unit, in frame order: the series the groupby hands
to the rolling transform (data_preprocessing.py line 115). Rows of the frame
are embedded as (unit, sensor value) pairs for a single fixed sensor. -/
def unit_series (df : List (Nat × ℚ)) (u : Nat) : List ℚ :=
  (df.filter (fun p => p.1 == u)).map Prod.snd

/-- Trailing window of a series at position i (0-based): last ROLLING_WINDOW
values up to and including position i, fewer when fewer exist
(rolling(window=5, min_periods=1)). -/
def windowAt (xs : List ℚ) (i : Nat) : List ℚ :=
  (xs.take (i + 1)).drop (i + 1 - ROLLING_WINDOW)

/-- Arithmetic mean of a list (sum over length; 0 for the empty list only as a
convention, the pipeline never takes the mean of an empty window). -/
def listMean (xs : List ℚ) : ℚ := xs.sum / (xs.length : ℚ)

/-- Rolling mean feature at position i of a unit series
(data_preprocessing.py lines 118-120). -/
def rolling_mean_at (xs : List ℚ) (i : Nat) : ℚ := listMean (windowAt xs i)

/-- Sample variance of a window: sum of squared deviations from the mean over
(n - 1). Pandas rolling std is the square root of this; the embedding keeps the
square (the variance) to stay inside ℚ — equality and zero-ness of the std are
exactly equality and zero-ness of this value. -/
def sampleVar (w : List ℚ) : ℚ :=
  ((w.map (fun x => (x - listMean w) ^ 2)).sum) / ((w.length : ℚ) - 1)

/-- Squared rolling std feature at position i before NaN filling
(data_preprocessing.py lines 123-125): a one-element window has undefined
sample standard deviation, which pandas renders as NaN — embedded as none. -/
def rolling_std_sq_at (xs : List ℚ) (i : Nat) : Option ℚ :=
  if (windowAt xs i).length ≤ 1 then none else some (sampleVar (windowAt xs i))

/-- Squared rolling std feature after the fillna(0) step
(data_preprocessing.py line 128, clean_data.py line 68). -/
def rolling_std_sq_filled_at (xs : List ℚ) (i : Nat) : ℚ :=
  (rolling_std_sq_at xs i).getD 0

/-! ## Drift monitoring (api/main.py lines 357-431) -/

/-- Deviation of a recent mean from its baseline (api/main.py lines 391-395):
relative when the baseline is nonzero, absolute when it is exactly zero. -/
def deviation_of (baseline recent : ℚ) : ℚ :=
  if baseline ≠ 0 then |recent - baseline| / |baseline| else |recent - baseline|

/-- Mean of one feature over the window entries (api/main.py lines 377-379:
recent_df.mean()). A window entry is the feature snapshot of one request,
embedded as a function from column name to value; all entries of the real
window share the fixed input schema, carried here by the cols argument. -/
def recent_mean (window : List (String → ℚ)) (fname : String) : ℚ :=
  listMean (window.map (fun e => e fname))

/-- Per-feature deviations, in baseline order, for the features that are both
in BASELINE_STATS and among the window's columns (api/main.py lines 386-410). -/
def deviations_list (cols : List String) (window : List (String → ℚ)) :
    List (String × ℚ) :=
  (BASELINE_STATS.filter (fun p => cols.contains p.1)).map
    (fun p => (p.1, deviation_of p.2 (recent_mean window p.1)))

/-- Shape of the monitoring report (api/main.py lines 120-125, 419-431). -/
structure DriftReport where
  drift_detected : Bool
  max_deviation : ℚ
  drifted_features : List String
  recent_requests : Nat
deriving DecidableEq

/-- The monitoring endpoint (api/main.py lines 357-431): empty window short
circuits to an empty report; otherwise every baseline feature present among the
columns contributes a deviation, the running maximum (started at 0) decides
drift_detected against the threshold, and features above the threshold are
listed as drifted. -/
def monitor_drift (cols : List String) (window : List (String → ℚ)) : DriftReport :=
  if window.isEmpty then ⟨false, 0, [], 0⟩
  else
    let devs := deviations_list cols window
    let maxDev := devs.foldl (fun m p => max m p.2) 0
    ⟨decide (maxDev > DRIFT_THRESHOLD), maxDev,
      (devs.filter (fun p => decide (p.2 > DRIFT_THRESHOLD))).map Prod.fst,
      window.length⟩

/-! ## Inference-mode feature engineering (api/main.py lines 128-158, 250-268) -/

/-- Input schema of the predict endpoint (api/main.py lines 66-95): three
operational settings and 21 sensors, all floats. -/
structure EngineFeatures where
  setting_1 : ℚ
  setting_2 : ℚ
  setting_3 : ℚ
  s_1 : ℚ
  s_2 : ℚ
  s_3 : ℚ
  s_4 : ℚ
  s_5 : ℚ
  s_6 : ℚ
  s_7 : ℚ
  s_8 : ℚ
  s_9 : ℚ
  s_10 : ℚ
  s_11 : ℚ
  s_12 : ℚ
  s_13 : ℚ
  s_14 : ℚ
  s_15 : ℚ
  s_16 : ℚ
  s_17 : ℚ
  s_18 : ℚ
  s_19 : ℚ
  s_20 : ℚ
  s_21 : ℚ

/-- The single-row frame the predict endpoint builds (api/main.py lines
252-255): the request's fields in declaration order with the six constant
sensors dropped. -/
def inputRow (f : EngineFeatures) : List (String × ℚ) :=
  [("setting_1", f.setting_1), ("setting_2", f.setting_2), ("setting_3", f.setting_3),
   ("s_2", f.s_2), ("s_3", f.s_3), ("s_4", f.s_4), ("s_6", f.s_6),
   ("s_7", f.s_7), ("s_8", f.s_8), ("s_9", f.s_9), ("s_11", f.s_11),
   ("s_12", f.s_12), ("s_13", f.s_13), ("s_14", f.s_14), ("s_15", f.s_15),
   ("s_17", f.s_17), ("s_20", f.s_20), ("s_21", f.s_21)]

/-- Column lookup on a single-row frame: the value under the first matching
column name (column names are unique in every frame the pipeline builds). -/
def lookupQ (row : List (String × ℚ)) (k : String) : Option ℚ :=
  match row with
  | [] => none
  | p :: ps => if p.1 = k then some p.2 else lookupQ ps k

/-- Column assignment on a single-row frame (result[col] = value): replaces the
value when the column exists, appends the column otherwise. -/
def set_col (row : List (String × ℚ)) (k : String) (v : ℚ) : List (String × ℚ) :=
  if (lookupQ row k).isSome then
    row.map (fun p => if p.1 = k then (k, v) else p)
  else row ++ [(k, v)]

/-- Loop body of the inference-mode feature engineering (api/main.py lines
146-156), for one key sensor: when the sensor is among the columns, the rolling
mean feature is set to the raw value and the rolling std feature to 0.0, and
when the sensor additionally has a baseline, the normalized feature is set to
(raw - mean) / std with std synthesized as abs(mean) * 0.05 for a nonzero mean
and 1.0 otherwise. -/
def engineer_step (result : List (String × ℚ)) (sensor : String) :
    List (String × ℚ) :=
  match lookupQ result sensor with
  | none => result
  | some v =>
    let r1 := set_col result (sensor ++ "_mean") v
    let r2 := set_col r1 (sensor ++ "_std") 0
    match lookupQ BASELINE_STATS sensor with
    | none => r2
    | some m =>
      set_col r2 (sensor ++ "_norm")
        ((v - m) / (if m ≠ 0 then |m| * mkRat 5 100 else 1))

/-- Inference-mode feature engineering for a single historyless reading
(api/main.py lines 128-158): the loop over the key sensors. -/
def create_engineered_features (raw : List (String × ℚ)) : List (String × ℚ) :=
  KEY_SENSORS.foldl engineer_step raw

/-- Restriction of the engineered row to the expected feature list
(api/main.py lines 260-268): when the list is nonempty, any expected column
missing from the row is first filled with 0.0 and the row is then reindexed to
exactly the expected names in the list's order; a falsy (empty) list leaves the
row untouched. -/
def select_features (expected : List String) (row : List (String × ℚ)) :
    List (String × ℚ) :=
  if expected.isEmpty then row
  else expected.map (fun n => (n, (lookupQ row n).getD 0))

/-- The feature frame handed to the regressor for one request
(api/main.py lines 250-271). -/
def predict_features (expected : List String) (f : EngineFeatures) :
    List (String × ℚ) :=
  select_features expected (create_engineered_features (inputRow f))

/-! ## Training-time feature-column list (data_preprocessing.py lines 241-282) -/

/-- Columns excluded from the feature list (data_preprocessing.py line 257). -/
def EXCLUDE_COLS : List String := ["unit_nr", "time_cycles", "RUL", "RUL_clipped"]

/-- Classification of one column name (data_preprocessing.py lines 265-268)
and the keep decision of the loop body (lines 270-280). -/
def keep_column (include_rolling include_normalized include_raw : Bool)
    (c : String) : Bool :=
  if EXCLUDE_COLS.contains c then false
  else if c.startsWith "setting_" then true
  else if c.endsWith "_mean" || c.endsWith "_std" then include_rolling
  else if c.endsWith "_norm" then include_normalized
  else include_raw

/-- Feature-column list for training (data_preprocessing.py lines 241-282):
the kept columns, sorted by name (Python sorted(); embedded as a stable
insertion sort under the lexicographic string order). -/
def get_feature_columns (cols : List String)
    (include_rolling include_normalized include_raw : Bool) : List String :=
  List.insertionSort (fun a b : String => a ≤ b)
    (cols.filter (keep_column include_rolling include_normalized include_raw))

/-! ## Startup of the inference path (api/main.py lines 161-191) -/

/-- Hardcoded fallback feature list built when feature_columns.txt is absent
(api/main.py lines 183-187): settings plus mean/norm/std per key sensor,
sorted. -/
def default_feature_list : List String :=
  List.insertionSort (fun a b : String => a ≤ b)
    (["setting_1", "setting_2", "setting_3"] ++
      KEY_SENSORS.flatMap (fun s => [s ++ "_mean", s ++ "_norm", s ++ "_std"]))

/-- Startup logic of load_model (api/main.py lines 161-191), embedded over
whether the model file exists and the optional content (lines) of
feature_columns.txt: a missing model file aborts startup; a present feature
file is consumed as its stripped lines; a missing feature file falls back to
the hardcoded default list. -/
def load_model (model_exists : Bool) (feature_file : Option (List String)) :
    Except String (List String) :=
  if !model_exists then .error "Model file not found"
  else
    match feature_file with
    | some lines => .ok (lines.map (fun l => l.trim))
    | none => .ok default_feature_list

/-! ## Raw frame loading (data_preprocessing.py lines 32-51) -/

/-- Expected column count of the raw file: unit, cycle, 3 settings, 21
sensors. -/
def NUM_COLUMNS : Nat := 26

/-- Behaviour of pandas read_csv on one whitespace-split line under 26 given
column names: a field is embedded as some value when numeric and none when not
(a non-numeric field is loaded as-is into an object column, not rejected); idx
is the width of the implicit index, inferred once per file from the first row
(its field count beyond the 26 names) — those excess leading fields are
consumed as the index; missing trailing columns are filled with NaN (none). -/
def parse_line (idx : Nat) (fields : List (Option ℚ)) : List (Option ℚ) :=
  let data := fields.drop idx
  data ++ List.replicate (NUM_COLUMNS - data.length) none

/-- First ragged line of the rest of the file, if any: pandas raises its
ParserError at the first later line with more fields than the first row has.
lineno is the 1-based file line number of the head of ls; the result carries
the offending line's number and its field count. -/
def find_ragged (expected : Nat) (lineno : Nat) (ls : List (List (Option ℚ))) :
    Option (Nat × Nat) :=
  match ls with
  | [] => none
  | l :: rest =>
    if expected < l.length then some (lineno, l.length)
    else find_ragged expected (lineno + 1) rest

/-- load_raw_data (data_preprocessing.py lines 32-51): a bare read_csv with 26
fixed column names and no validation of its own. The pandas engine still fails
in two ways: an empty input raises EmptyDataError (no line number; the 0 is a
placeholder), and a later line with more fields than the first line raises
ParserError naming the offending 1-based line number. Otherwise the expected
field count and the implicit index width are fixed by the first line, and every
line is parsed: shorter lines are NaN-padded, never rejected. -/
def load_raw_data (lines : List (List (Option ℚ))) :
    Except (Nat × String) (List (List (Option ℚ))) :=
  match lines with
  | [] => .error (0, "No columns to parse from file")
  | first :: rest =>
    match find_ragged first.length 2 rest with
    | some (ln, saw) =>
      .error (ln, "Expected " ++ toString first.length ++ " fields, saw " ++ toString saw)
    | none => .ok ((first :: rest).map (parse_line (first.length - NUM_COLUMNS)))

end Turbofan

namespace Turbofan

/-! ## Basic facts about the drift window -/

theorem record_length {α : Type} (w : List α) (x : α) :
    (record w x).length = min (w.length + 1) DRIFT_WINDOW_CAPACITY := by
  have hcap : DRIFT_WINDOW_CAPACITY = 100 := rfl
  simp [record]
  omega

theorem foldl_record_eq {α : Type} (xs : List α) (w : List α)
    (h : w.length ≤ DRIFT_WINDOW_CAPACITY) :
    List.foldl record w xs = (w ++ xs).drop (w.length + xs.length - DRIFT_WINDOW_CAPACITY) := by
  induction xs generalizing w with
  | nil =>
    have h0 : w.length + ([] : List α).length - DRIFT_WINDOW_CAPACITY = 0 := by
      simp only [List.length_nil]
      omega
    rw [List.foldl_nil, List.append_nil, h0, List.drop_zero]
  | cons x xs ih =>
    have hcap : DRIFT_WINDOW_CAPACITY = 100 := rfl
    have hlen : (record w x).length = min (w.length + 1) DRIFT_WINDOW_CAPACITY :=
      record_length w x
    have hle : (record w x).length ≤ DRIFT_WINDOW_CAPACITY := by omega
    rw [List.foldl_cons, ih (record w x) hle]
    have hrec : record w x = (w ++ [x]).drop (w.length + 1 - DRIFT_WINDOW_CAPACITY) := by
      simp [record]
    have hk : w.length + 1 - DRIFT_WINDOW_CAPACITY ≤ (w ++ [x]).length := by
      simp
    have hidx : w.length + (x :: xs).length - DRIFT_WINDOW_CAPACITY =
        (w.length + 1 - DRIFT_WINDOW_CAPACITY) +
          ((record w x).length + xs.length - DRIFT_WINDOW_CAPACITY) := by
      simp only [List.length_cons]
      omega
    conv_rhs =>
      rw [show w ++ x :: xs = (w ++ [x]) ++ xs from by simp, hidx, ← List.drop_drop,
        List.drop_append_of_le_length hk]
    rw [hrec]

/-! ## Status banding -/

theorem rul_status_cases (y : ℚ) :
    (rul_status y = "Critical" ↔ y < 30) ∧
    (rul_status y = "Warning" ↔ 30 ≤ y ∧ y < 80) ∧
    (rul_status y = "Healthy" ↔ 80 ≤ y) := by
  unfold rul_status
  rcases lt_or_le y 30 with h1 | h1
  · rw [if_pos h1]
    refine ⟨by simp [h1], ?_, ?_⟩
    · constructor
      · intro h
        exact absurd h (by decide)
      · rintro ⟨h2, _⟩
        linarith
    · constructor
      · intro h
        exact absurd h (by decide)
      · intro h2
        linarith
  · rw [if_neg (not_lt.mpr h1)]
    rcases lt_or_le y 80 with h2 | h2
    · rw [if_pos h2]
      refine ⟨?_, by simp [h1, h2], ?_⟩
      · constructor
        · intro h
          exact absurd h (by decide)
        · intro h3
          linarith
      · constructor
        · intro h
          exact absurd h (by decide)
        · intro h3
          linarith
    · rw [if_neg (not_lt.mpr h2)]
      refine ⟨?_, ?_, by simp [h2]⟩
      · constructor
        · intro h
          exact absurd h (by decide)
        · intro h3
          linarith
      · constructor
        · intro h
          exact absurd h (by decide)
        · rintro ⟨_, h3⟩
          linarith

/-- C7: the served prediction is the regressor output clamped into [0, 125],
and the clamped value is banded with inclusive lower boundaries: below 30
Critical, from 30 below 80 Warning, from 80 Healthy; in particular 30.0 is
Warning and 80.0 is Healthy. -/
theorem clamp_and_band_spec (x : ℚ) :
    0 ≤ clamp_rul x ∧ clamp_rul x ≤ 125 ∧
    (rul_status (clamp_rul x) = "Critical" ↔ clamp_rul x < 30) ∧
    (rul_status (clamp_rul x) = "Warning" ↔ 30 ≤ clamp_rul x ∧ clamp_rul x < 80) ∧
    (rul_status (clamp_rul x) = "Healthy" ↔ 80 ≤ clamp_rul x) ∧
    rul_status (clamp_rul 30) = "Warning" ∧
    rul_status (clamp_rul 80) = "Healthy" := by
  obtain ⟨hc, hw, hh⟩ := rul_status_cases (clamp_rul x)
  have h30 : clamp_rul 30 = 30 := by
    rw [clamp_rul, min_eq_right (by norm_num : (30 : ℚ) ≤ 125),
      max_eq_right (by norm_num : (0 : ℚ) ≤ 30)]
  have h80 : clamp_rul 80 = 80 := by
    rw [clamp_rul, min_eq_right (by norm_num : (80 : ℚ) ≤ 125),
      max_eq_right (by norm_num : (0 : ℚ) ≤ 80)]
  refine ⟨le_max_left 0 _, max_le (by norm_num) (min_le_left _ _), hc, hw, hh, ?_, ?_⟩
  · rw [h30]
    exact ((rul_status_cases 30).2.1).mpr ⟨le_refl _, by norm_num⟩
  · rw [h80]
    exact ((rul_status_cases 80).2.2).mpr (le_refl _)

/-- C4: the drift window is a FIFO buffer of capacity 100 — record appends,
evicting the oldest entry exactly when the window is full, so the size never
exceeds 100; 150 sequential insertions from empty leave exactly the 100 most
recent entries in insertion order; reset empties the window and is
idempotent. -/
theorem drift_window_fifo {α : Type} (w : List α) (x : α) (xs : List α)
    (hw : w.length ≤ DRIFT_WINDOW_CAPACITY) (h150 : xs.length = 150) :
    (record w x).length ≤ DRIFT_WINDOW_CAPACITY ∧
    record w x =
      (if w.length < DRIFT_WINDOW_CAPACITY then w ++ [x] else w.drop 1 ++ [x]) ∧
    List.foldl record [] xs = xs.drop 50 ∧
    reset_monitoring w = ([] : List α) ∧
    reset_monitoring (reset_monitoring w) = reset_monitoring w := by
  have hcap : DRIFT_WINDOW_CAPACITY = 100 := rfl
  have hlen := record_length w x
  refine ⟨by omega, ?_, ?_, rfl, rfl⟩
  · by_cases hlt : w.length < DRIFT_WINDOW_CAPACITY
    · rw [if_pos hlt]
      have h0 : (w ++ [x]).length - DRIFT_WINDOW_CAPACITY = 0 := by
        simp
        omega
      rw [record, h0, List.drop_zero]
    · rw [if_neg hlt]
      have heq : w.length = DRIFT_WINDOW_CAPACITY := by omega
      have h1 : (w ++ [x]).length - DRIFT_WINDOW_CAPACITY = 1 := by
        simp
        omega
      rw [record, h1, List.drop_append_of_le_length (by omega)]
  · rw [foldl_record_eq xs [] (by simp)]
    simp [h150, hcap]

/-! ## RUL labeling facts -/

theorem init_le_foldl_max (l : List Nat) (a : Nat) : a ≤ l.foldl max a := by
  induction l generalizing a with
  | nil => simp
  | cons b t ih => exact le_trans (le_max_left a b) (ih (max a b))

theorem le_foldl_max (l : List Nat) (a x : Nat) (h : x ∈ l) : x ≤ l.foldl max a := by
  induction l generalizing a with
  | nil => cases h
  | cons b t ih =>
    rcases List.mem_cons.mp h with rfl | h2
    · exact le_trans (le_max_right a x) (init_le_foldl_max t (max a x))
    · exact ih (max a b) h2

theorem cycle_le_max_cycle {df : List Reading} {r : Reading} (hr : r ∈ df) :
    r.cycle ≤ max_cycle df r.unit := by
  apply le_foldl_max
  exact List.mem_map.mpr ⟨r, List.mem_filter.mpr ⟨hr, by simp⟩, rfl⟩

/-- C5: RUL of a reading is the greatest observed cycle of its unit minus its
own cycle, hence nonnegative, non-increasing in the cycle within a unit, and
zero exactly at the unit's last observed cycle. -/
theorem rul_labeling_spec (df : List Reading) (r : Reading) (hr : r ∈ df) :
    calculate_rul df r = (max_cycle df r.unit : Int) - (r.cycle : Int) ∧
    0 ≤ calculate_rul df r ∧
    (∀ r2 ∈ df, r2.unit = r.unit → r.cycle ≤ r2.cycle →
      calculate_rul df r2 ≤ calculate_rul df r) ∧
    (calculate_rul df r = 0 ↔ r.cycle = max_cycle df r.unit) := by
  have hmax := cycle_le_max_cycle hr
  refine ⟨rfl, ?_, ?_, ?_⟩
  · unfold calculate_rul
    omega
  · intro r2 _ hu hc
    unfold calculate_rul
    rw [hu]
    omega
  · unfold calculate_rul
    omega

/-- Witness for C4 at a concrete window and entry stream. -/
theorem drift_window_fifo_witness :
    List.foldl record ([] : List Nat) (List.range 150) = (List.range 150).drop 50 :=
  (drift_window_fifo [7] 8 (List.range 150) (by decide) (by simp)).2.2.1

/-- Witness for C5 at a concrete two-cycle unit. -/
theorem rul_labeling_spec_witness :
    0 ≤ calculate_rul [⟨1, 1⟩, ⟨1, 2⟩] ⟨1, 1⟩ :=
  (rul_labeling_spec [⟨1, 1⟩, ⟨1, 2⟩] ⟨1, 1⟩ (by decide)).2.1

/-! ## Rolling-window causality -/

theorem windowAt_take (xs : List ℚ) (i : Nat) :
    windowAt xs i = windowAt (xs.take (i + 1)) i := by
  simp [windowAt, List.take_take]

/-- C9: the rolling mean and rolling std features of a unit at window position
j depend only on the first j+1 readings of that unit: any modification of the
unit's later cycles, and any modification of readings of other units (which
leaves unit_series unchanged altogether), leaves them unchanged. -/
theorem rolling_causality (df df2 : List (Nat × ℚ)) (u j : Nat)
    (h : (unit_series df u).take (j + 1) = (unit_series df2 u).take (j + 1)) :
    rolling_mean_at (unit_series df u) j = rolling_mean_at (unit_series df2 u) j ∧
    rolling_std_sq_at (unit_series df u) j = rolling_std_sq_at (unit_series df2 u) j ∧
    rolling_std_sq_filled_at (unit_series df u) j =
      rolling_std_sq_filled_at (unit_series df2 u) j := by
  have hw : windowAt (unit_series df u) j = windowAt (unit_series df2 u) j := by
    rw [windowAt_take, h, ← windowAt_take]
  refine ⟨?_, ?_, ?_⟩ <;>
    simp [rolling_mean_at, rolling_std_sq_at, rolling_std_sq_filled_at, hw]

/-- Witness for C9: the second unit's value and the first unit's second cycle
differ between the two frames, yet the features at the first cycle agree. -/
theorem rolling_causality_witness :
    rolling_mean_at (unit_series [(1, 3), (1, 4), (2, 9)] 1) 0 =
      rolling_mean_at (unit_series [(1, 3), (1, 5), (2, 7)] 1) 0 :=
  (rolling_causality [(1, 3), (1, 4), (2, 9)] [(1, 3), (1, 5), (2, 7)] 1 0 rfl).1

/-! ## Structure of the engineered row -/

theorem lookupQ_append (l1 l2 : List (String × ℚ)) (k : String) :
    lookupQ (l1 ++ l2) k =
      match lookupQ l1 k with
      | some v => some v
      | none => lookupQ l2 k := by
  induction l1 with
  | nil => simp [lookupQ]
  | cons p ps ih =>
    by_cases h : p.1 = k
    · simp [lookupQ, h]
    · simp [lookupQ, h, ih]

theorem lookupQ_map_update_self (row : List (String × ℚ)) (k : String) (v : ℚ) :
    lookupQ (row.map fun p => if p.1 = k then (k, v) else p) k =
      if (lookupQ row k).isSome then some v else none := by
  induction row with
  | nil => simp [lookupQ]
  | cons p ps ih =>
    by_cases h : p.1 = k
    · simp [lookupQ, h]
    · simp [lookupQ, h, ih]

theorem lookupQ_map_update_other (row : List (String × ℚ)) (k k2 : String) (v : ℚ)
    (h : k ≠ k2) :
    lookupQ (row.map fun p => if p.1 = k then (k, v) else p) k2 = lookupQ row k2 := by
  induction row with
  | nil => rfl
  | cons p ps ih =>
    by_cases hp : p.1 = k
    · simp [lookupQ, hp, h, ih]
    · by_cases hp2 : p.1 = k2 <;> simp [lookupQ, hp, hp2, ih, Ne.symm h]

theorem lookupQ_set_col_self (row : List (String × ℚ)) (k : String) (v : ℚ) :
    lookupQ (set_col row k v) k = some v := by
  unfold set_col
  by_cases h : (lookupQ row k).isSome
  · rw [if_pos h, lookupQ_map_update_self, if_pos h]
  · rw [if_neg h, lookupQ_append]
    cases hcase : lookupQ row k with
    | some w => rw [hcase] at h; simp at h
    | none => simp [lookupQ]

theorem lookupQ_set_col_other (row : List (String × ℚ)) (k k2 : String) (v : ℚ)
    (h : k ≠ k2) :
    lookupQ (set_col row k v) k2 = lookupQ row k2 := by
  unfold set_col
  by_cases hs : (lookupQ row k).isSome
  · rw [if_pos hs, lookupQ_map_update_other _ _ _ _ h]
  · rw [if_neg hs, lookupQ_append]
    cases hcase : lookupQ row k2 with
    | some w => simp
    | none => simp [lookupQ, h]

theorem engineer_step_other (result : List (String × ℚ)) (s k : String)
    (h1 : k ≠ s ++ "_mean") (h2 : k ≠ s ++ "_std") (h3 : k ≠ s ++ "_norm") :
    lookupQ (engineer_step result s) k = lookupQ result k := by
  unfold engineer_step
  cases hv : lookupQ result s with
  | none => rfl
  | some v =>
    cases hb : lookupQ BASELINE_STATS s with
    | none =>
      dsimp only
      rw [lookupQ_set_col_other _ _ _ _ (Ne.symm h2),
        lookupQ_set_col_other _ _ _ _ (Ne.symm h1)]
    | some m =>
      dsimp only
      rw [lookupQ_set_col_other _ _ _ _ (Ne.symm h3),
        lookupQ_set_col_other _ _ _ _ (Ne.symm h2),
        lookupQ_set_col_other _ _ _ _ (Ne.symm h1)]

theorem engineer_step_sets (result : List (String × ℚ)) (s : String) (v m : ℚ)
    (hv : lookupQ result s = some v) (hb : lookupQ BASELINE_STATS s = some m)
    (h1 : s ++ "_std" ≠ s ++ "_mean") (h2 : s ++ "_norm" ≠ s ++ "_std")
    (h3 : s ++ "_norm" ≠ s ++ "_mean") :
    lookupQ (engineer_step result s) (s ++ "_mean") = some v ∧
    lookupQ (engineer_step result s) (s ++ "_std") = some 0 ∧
    lookupQ (engineer_step result s) (s ++ "_norm") =
      some ((v - m) / (if m ≠ 0 then |m| * mkRat 5 100 else 1)) := by
  unfold engineer_step
  rw [hv, hb]
  dsimp only
  refine ⟨?_, ?_, ?_⟩
  · rw [lookupQ_set_col_other _ _ _ _ h3, lookupQ_set_col_other _ _ _ _ h1]
    exact lookupQ_set_col_self _ _ _
  · rw [lookupQ_set_col_other _ _ _ _ h2]
    exact lookupQ_set_col_self _ _ _
  · exact lookupQ_set_col_self _ _ _

theorem foldl_engineer_preserve (sensors : List String) (acc : List (String × ℚ))
    (k : String)
    (h : ∀ s ∈ sensors, k ≠ s ++ "_mean" ∧ k ≠ s ++ "_std" ∧ k ≠ s ++ "_norm") :
    lookupQ (List.foldl engineer_step acc sensors) k = lookupQ acc k := by
  induction sensors generalizing acc with
  | nil => rfl
  | cons s rest ih =>
    obtain ⟨h1, h2, h3⟩ := h s (List.mem_cons_self _ _)
    rw [List.foldl_cons, ih _ (fun s2 hs2 => h s2 (List.mem_cons_of_mem _ hs2)),
      engineer_step_other _ _ _ h1 h2 h3]

theorem key_sensor_names_apart :
    ∀ s1 ∈ KEY_SENSORS, ∀ s2 ∈ KEY_SENSORS,
      (s1 ≠ s2 ++ "_mean" ∧ s1 ≠ s2 ++ "_std" ∧ s1 ≠ s2 ++ "_norm") ∧
      (s1 ≠ s2 →
        (s1 ++ "_mean" ≠ s2 ++ "_mean" ∧ s1 ++ "_mean" ≠ s2 ++ "_std" ∧
          s1 ++ "_mean" ≠ s2 ++ "_norm" ∧
          s1 ++ "_std" ≠ s2 ++ "_mean" ∧ s1 ++ "_std" ≠ s2 ++ "_std" ∧
          s1 ++ "_std" ≠ s2 ++ "_norm" ∧
          s1 ++ "_norm" ≠ s2 ++ "_mean" ∧ s1 ++ "_norm" ≠ s2 ++ "_std" ∧
          s1 ++ "_norm" ≠ s2 ++ "_norm")) ∧
      (s1 ++ "_std" ≠ s1 ++ "_mean" ∧ s1 ++ "_norm" ≠ s1 ++ "_std" ∧
        s1 ++ "_norm" ≠ s1 ++ "_mean") := by
  decide

theorem create_lookup_mem (raw : List (String × ℚ)) (s : String) (v m : ℚ)
    (hmem : s ∈ KEY_SENSORS)
    (hraw : lookupQ raw s = some v) (hb : lookupQ BASELINE_STATS s = some m) :
    lookupQ (create_engineered_features raw) (s ++ "_mean") = some v ∧
    lookupQ (create_engineered_features raw) (s ++ "_std") = some 0 ∧
    lookupQ (create_engineered_features raw) (s ++ "_norm") =
      some ((v - m) / (if m ≠ 0 then |m| * mkRat 5 100 else 1)) := by
  obtain ⟨pre, post, hsplit⟩ := List.append_of_mem hmem
  have hnodup : KEY_SENSORS.Nodup := by decide
  have hg := key_sensor_names_apart
  have hsp := hnodup
  rw [hsplit] at hsp
  obtain ⟨hpre_nd, hcons_nd, hdisj⟩ := List.nodup_append.mp hsp
  have hs_post : s ∉ post := (List.nodup_cons.mp hcons_nd).1
  have hpre_sub : ∀ x ∈ pre, x ∈ KEY_SENSORS := fun x hx => by
    rw [hsplit]
    exact List.mem_append_left _ hx
  have hpost_sub : ∀ x ∈ post, x ∈ KEY_SENSORS := fun x hx => by
    rw [hsplit]
    exact List.mem_append_right _ (List.mem_cons_of_mem _ hx)
  have hparts : ∀ s2 ∈ post, s ≠ s2 := fun s2 h2 he => hs_post (he ▸ h2)
  have hpre_fun : ∀ s2 ∈ pre, s ≠ s2 ++ "_mean" ∧ s ≠ s2 ++ "_std" ∧ s ≠ s2 ++ "_norm" :=
    fun s2 h2 => (hg s hmem s2 (hpre_sub s2 h2)).1
  have hpost9 := fun s2 h2 =>
    (hg s hmem s2 (hpost_sub s2 h2)).2.1 (hparts s2 h2)
  have hself := (hg s hmem s hmem).2.2
  unfold create_engineered_features
  rw [hsplit, List.foldl_append, List.foldl_cons]
  have hacc : lookupQ (List.foldl engineer_step raw pre) s = some v := by
    rw [foldl_engineer_preserve pre raw s hpre_fun, hraw]
  obtain ⟨e1, e2, e3⟩ :=
    engineer_step_sets _ _ v m hacc hb hself.1 hself.2.1 hself.2.2
  refine ⟨?_, ?_, ?_⟩
  · rw [foldl_engineer_preserve _ _ _
      (fun s2 h2 => ⟨(hpost9 s2 h2).1, (hpost9 s2 h2).2.1, (hpost9 s2 h2).2.2.1⟩), e1]
  · rw [foldl_engineer_preserve _ _ _
      (fun s2 h2 => ⟨(hpost9 s2 h2).2.2.2.1, (hpost9 s2 h2).2.2.2.2.1,
        (hpost9 s2 h2).2.2.2.2.2.1⟩), e2]
  · rw [foldl_engineer_preserve _ _ _
      (fun s2 h2 => ⟨(hpost9 s2 h2).2.2.2.2.2.2.1, (hpost9 s2 h2).2.2.2.2.2.2.2.1,
        (hpost9 s2 h2).2.2.2.2.2.2.2.2⟩), e3]

/-- C10: in batch mode the (squared) rolling std feature at a unit's first
cycle is the NaN of a one-sample sample standard deviation filled with 0.0,
hence 0; and the inference-mode approximation stores exactly 0 in every key
sensor's std feature, so the two modes coincide at a unit's first cycle. -/
theorem first_cycle_std_zero :
    (∀ xs : List ℚ, rolling_std_sq_filled_at xs 0 = 0) ∧
    (∀ (f : EngineFeatures), ∀ s ∈ KEY_SENSORS,
      lookupQ (create_engineered_features (inputRow f)) (s ++ "_std") = some 0) := by
  constructor
  · intro xs
    cases xs with
    | nil => rfl
    | cons a t => rfl
  · intro f s hs
    have hv : ∃ v, lookupQ (inputRow f) s = some v := by
      fin_cases hs <;> exact ⟨_, rfl⟩
    have hm : ∃ m, lookupQ BASELINE_STATS s = some m := by
      fin_cases hs <;> exact ⟨_, rfl⟩
    obtain ⟨v, hv⟩ := hv
    obtain ⟨m, hm⟩ := hm
    exact (create_lookup_mem (inputRow f) s v m hs hv hm).2.1

/-- Witness for C10 at a concrete series and sensor. -/
theorem first_cycle_std_zero_witness :
    rolling_std_sq_filled_at [3, 9] 0 = 0 :=
  first_cycle_std_zero.1 [3, 9]

/-- C6: for every historyless reading, each key sensor's rolling-mean feature
equals the raw value, its rolling-std feature is 0.0, and its normalized
feature is (raw - baseline mean) / (0.05 * abs(baseline mean)) — every key
sensor has a nonzero baseline mean, so the 1.0 fallback branch of the
synthesized std is never taken on this path. -/
theorem inference_feature_approx (f : EngineFeatures) (s : String)
    (hs : s ∈ KEY_SENSORS) :
    ∃ v m, lookupQ (inputRow f) s = some v ∧
      lookupQ BASELINE_STATS s = some m ∧ m ≠ 0 ∧
      lookupQ (create_engineered_features (inputRow f)) (s ++ "_mean") = some v ∧
      lookupQ (create_engineered_features (inputRow f)) (s ++ "_std") = some 0 ∧
      lookupQ (create_engineered_features (inputRow f)) (s ++ "_norm") =
        some ((v - m) / (|m| * mkRat 5 100)) := by
  have hv : ∃ v, lookupQ (inputRow f) s = some v := by
    fin_cases hs <;> exact ⟨_, rfl⟩
  have hm : ∃ m, lookupQ BASELINE_STATS s = some m ∧ m ≠ 0 := by
    fin_cases hs <;> exact ⟨_, rfl, by decide⟩
  obtain ⟨v, hv⟩ := hv
  obtain ⟨m, hm, hm0⟩ := hm
  obtain ⟨e1, e2, e3⟩ := create_lookup_mem (inputRow f) s v m hs hv hm
  exact ⟨v, m, hv, hm, hm0, e1, e2, by rw [e3, if_pos hm0]⟩

/-- Witness for C6 at the all-zero reading and sensor s_2. -/
theorem inference_feature_approx_witness :
    ∃ v m,
      lookupQ (inputRow ⟨0, 0, 0, 0, 0, 0, 0, 0, 0, 0, 0, 0, 0, 0, 0, 0, 0, 0, 0, 0, 0, 0, 0, 0⟩)
        "s_2" = some v ∧
      lookupQ BASELINE_STATS "s_2" = some m ∧ m ≠ 0 ∧
      lookupQ (create_engineered_features
        (inputRow ⟨0, 0, 0, 0, 0, 0, 0, 0, 0, 0, 0, 0, 0, 0, 0, 0, 0, 0, 0, 0, 0, 0, 0, 0⟩))
        ("s_2" ++ "_mean") = some v ∧
      lookupQ (create_engineered_features
        (inputRow ⟨0, 0, 0, 0, 0, 0, 0, 0, 0, 0, 0, 0, 0, 0, 0, 0, 0, 0, 0, 0, 0, 0, 0, 0⟩))
        ("s_2" ++ "_std") = some 0 ∧
      lookupQ (create_engineered_features
        (inputRow ⟨0, 0, 0, 0, 0, 0, 0, 0, 0, 0, 0, 0, 0, 0, 0, 0, 0, 0, 0, 0, 0, 0, 0, 0⟩))
        ("s_2" ++ "_norm") = some ((v - m) / (|m| * mkRat 5 100)) :=
  inference_feature_approx ⟨0, 0, 0, 0, 0, 0, 0, 0, 0, 0, 0, 0, 0, 0, 0, 0, 0, 0, 0, 0, 0, 0, 0, 0⟩
    "s_2" (by decide)

/-! ## Drift report facts -/

theorem foldl_max_gt_iff (l : List (String × ℚ)) (a t : ℚ) :
    t < l.foldl (fun m p => max m p.2) a ↔ t < a ∨ ∃ p ∈ l, t < p.2 := by
  induction l generalizing a with
  | nil => simp
  | cons q l ih =>
    rw [List.foldl_cons, ih, lt_max_iff]
    simp only [List.mem_cons]
    constructor
    · rintro ((h | h) | ⟨p, hp, hlt⟩)
      · exact Or.inl h
      · exact Or.inr ⟨q, Or.inl rfl, h⟩
      · exact Or.inr ⟨p, Or.inr hp, hlt⟩
    · rintro (h | ⟨p, (rfl | hp), hlt⟩)
      · exact Or.inl (Or.inl h)
      · exact Or.inl (Or.inr hlt)
      · exact Or.inr ⟨p, hp, hlt⟩

theorem keys_val_unique {l : List (String × ℚ)} (h : (l.map Prod.fst).Nodup)
    {a : String} {b b2 : ℚ} (h1 : (a, b) ∈ l) (h2 : (a, b2) ∈ l) : b = b2 := by
  induction l with
  | nil => cases h1
  | cons q l ih =>
    rw [List.map_cons, List.nodup_cons] at h
    rcases List.mem_cons.mp h1 with he1 | h1t
    · rcases List.mem_cons.mp h2 with he2 | h2t
      · exact congrArg Prod.snd (he1.trans he2.symm)
      · exact absurd (by rw [← he1]; exact List.mem_map.mpr ⟨(a, b2), h2t, rfl⟩) h.1
    · rcases List.mem_cons.mp h2 with he2 | h2t
      · exact absurd (by rw [← he2]; exact List.mem_map.mpr ⟨(a, b), h1t, rfl⟩) h.1
      · exact ih h.2 h1t h2t

/-- C3: for a nonempty window, drift_detected holds exactly when some baseline
feature among the window's columns deviates beyond the 20% threshold, a feature
is listed as drifted exactly when its own deviation exceeds the threshold, the
report counts the window's entries, and the empty window yields the empty
report rather than failing. -/
theorem drift_report_spec (cols : List String) (window : List (String → ℚ))
    (hw : window ≠ []) :
    ((monitor_drift cols window).drift_detected = true ↔
      ∃ p ∈ BASELINE_STATS, cols.contains p.1 = true ∧
        DRIFT_THRESHOLD < deviation_of p.2 (recent_mean window p.1)) ∧
    (∀ fname b, (fname, b) ∈ BASELINE_STATS → cols.contains fname = true →
      (fname ∈ (monitor_drift cols window).drifted_features ↔
        DRIFT_THRESHOLD < deviation_of b (recent_mean window fname))) ∧
    (monitor_drift cols window).recent_requests = window.length ∧
    monitor_drift cols ([] : List (String → ℚ)) = ⟨false, 0, [], 0⟩ := by
  have hne : window.isEmpty = false := by
    cases window with
    | nil => exact absurd rfl hw
    | cons e es => rfl
  have hnodup : (BASELINE_STATS.map Prod.fst).Nodup := by decide
  have h0 : ¬ DRIFT_THRESHOLD < (0 : ℚ) := by decide
  refine ⟨?_, ?_, ?_, rfl⟩
  · rw [monitor_drift, hne]
    simp only [Bool.false_eq_true, if_false, decide_eq_true_eq]
    rw [gt_iff_lt, foldl_max_gt_iff]
    simp only [h0, false_or, deviations_list, List.mem_map, List.mem_filter]
    constructor
    · rintro ⟨p2, ⟨p0, ⟨hp0, hc0⟩, rfl⟩, hlt⟩
      exact ⟨p0, hp0, hc0, hlt⟩
    · rintro ⟨p0, hp0, hc0, hlt⟩
      exact ⟨_, ⟨p0, ⟨hp0, hc0⟩, rfl⟩, hlt⟩
  · intro fname b hb hc
    rw [monitor_drift, hne]
    simp only [Bool.false_eq_true, if_false]
    simp only [List.mem_map, List.mem_filter, deviations_list, decide_eq_true_eq]
    constructor
    · rintro ⟨p2, ⟨⟨p0, ⟨hp0, hc0⟩, rfl⟩, hlt⟩, hfst⟩
      have hkey : p0.1 = fname := hfst
      have hval : p0.2 = b := by
        apply keys_val_unique hnodup _ hb
        rw [← hkey]
        exact hp0
      rw [hkey, hval] at hlt
      exact hlt
    · intro hlt
      exact ⟨((fname, b).1, deviation_of (fname, b).2 (recent_mean window (fname, b).1)),
        ⟨⟨(fname, b), ⟨hb, hc⟩, rfl⟩, hlt⟩, rfl⟩
  · rw [monitor_drift, hne]
    simp

/-- Witness for C3 at a concrete one-entry window. -/
theorem drift_report_spec_witness :
    (monitor_drift ["setting_3"] [fun _ => (0 : ℚ)]).recent_requests =
      ([fun _ => (0 : ℚ)] : List (String → ℚ)).length :=
  (drift_report_spec ["setting_3"] [fun _ => (0 : ℚ)] (List.cons_ne_nil _ _)).2.2.1

/-! ## Feature-vector contract facts -/

theorem lookupQ_map_pair (g : String → ℚ) (l : List String) (n : String) (h : n ∈ l) :
    lookupQ (l.map (fun x => (x, g x))) n = some (g n) := by
  induction l with
  | nil => cases h
  | cons a t ih =>
    rcases List.mem_cons.mp h with rfl | h2
    · simp [lookupQ]
    · by_cases hna : a = n
      · subst hna
        simp [lookupQ]
      · simp only [List.map_cons, lookupQ, hna, if_false]
        exact ih h2

/-- C1: with a nonempty persisted feature list, the vector handed to the
regressor consists exactly of the persisted names in the persisted order, every
name missing from the engineered row is filled with 0.0, any two requests yield
vectors of the same length with the same name ordering, and the training-time
feature-column list (which the persisted file records) is sorted
alphabetically. -/
theorem feature_vector_contract (expected : List String) (f g : EngineFeatures)
    (h : expected ≠ []) :
    (predict_features expected f).map Prod.fst = expected ∧
    (∀ n ∈ expected, lookupQ (predict_features expected f) n =
      some ((lookupQ (create_engineered_features (inputRow f)) n).getD 0)) ∧
    (predict_features expected f).length = (predict_features expected g).length ∧
    (predict_features expected f).map Prod.fst =
      (predict_features expected g).map Prod.fst ∧
    (∀ (cols : List String) (a b c : Bool),
      List.Sorted (· ≤ ·) (get_feature_columns cols a b c)) := by
  have hne : expected.isEmpty = false := by
    cases expected with
    | nil => exact absurd rfl h
    | cons a t => rfl
  refine ⟨?_, ?_, ?_, ?_, ?_⟩
  · simp only [predict_features, select_features, hne, Bool.false_eq_true, if_false,
      List.map_map]
    exact List.map_id expected
  · intro n hn
    simp only [predict_features, select_features, hne, Bool.false_eq_true, if_false]
    exact lookupQ_map_pair _ _ _ hn
  · simp [predict_features, select_features, hne]
  · simp [predict_features, select_features, hne, Function.comp]
  · intro cols a b c
    exact List.sorted_insertionSort _ _

/-- Witness for C1 at a concrete two-name feature list and the all-zero
reading. -/
theorem feature_vector_contract_witness :
    (predict_features ["a", "b"]
      ⟨0, 0, 0, 0, 0, 0, 0, 0, 0, 0, 0, 0, 0, 0, 0, 0, 0, 0, 0, 0, 0, 0, 0, 0⟩).map
        Prod.fst = ["a", "b"] :=
  (feature_vector_contract ["a", "b"]
    ⟨0, 0, 0, 0, 0, 0, 0, 0, 0, 0, 0, 0, 0, 0, 0, 0, 0, 0, 0, 0, 0, 0, 0, 0⟩
    ⟨0, 0, 0, 0, 0, 0, 0, 0, 0, 0, 0, 0, 0, 0, 0, 0, 0, 0, 0, 0, 0, 0, 0, 0⟩
    (by decide)).1

/-! ## Startup fallback facts -/

theorem default_feature_list_length : default_feature_list.length = 45 := by
  have h := (List.perm_insertionSort (fun a b : String => a ≤ b)
    (["setting_1", "setting_2", "setting_3"] ++
      KEY_SENSORS.flatMap (fun s => [s ++ "_mean", s ++ "_norm", s ++ "_std"]))).length_eq
  rw [default_feature_list, h]
  rfl

/-- C2 counterexample: with the model file present and feature_columns.txt
missing, startup does not fail — it substitutes the 45-name hardcoded default
feature list and serves. -/
theorem startup_fallback_counterexample :
    load_model true none = Except.ok default_feature_list ∧
    default_feature_list.length = 45 :=
  ⟨rfl, default_feature_list_length⟩

/-- C2 amended: only a missing model file is fatal at startup; a missing
feature-name list is not — load_model then substitutes the sorted hardcoded
default feature list, and a present feature file is consumed as its stripped
lines whatever they are (no corruption check). -/
theorem startup_feature_fallback (ff : Option (List String)) (lines : List String) :
    load_model false ff = Except.error "Model file not found" ∧
    load_model true (some lines) = Except.ok (lines.map (fun l => l.trim)) ∧
    load_model true none = Except.ok default_feature_list ∧
    default_feature_list ≠ [] ∧
    List.Sorted (· ≤ ·) default_feature_list := by
  refine ⟨rfl, rfl, rfl, ?_, List.sorted_insertionSort _ _⟩
  intro hfl
  have hlen := default_feature_list_length
  rw [hfl] at hlen
  simp at hlen

/-! ## Loader facts -/

/-- C8 counterexample: a line with 25 fields, and a 26-field line whose first
field is non-numeric, both load successfully — the exactly-26-numeric-fields
constraint of the claim is not enforced and no DataFormatError is produced. -/
theorem loader_no_validation_counterexample :
    load_raw_data [List.replicate 25 (some (1 : ℚ))] =
      Except.ok [List.replicate 25 (some (1 : ℚ)) ++ [none]] ∧
    load_raw_data [[none] ++ List.replicate 25 (some (1 : ℚ))] =
      Except.ok [[none] ++ List.replicate 25 (some (1 : ℚ))] :=
  ⟨rfl, rfl⟩

theorem find_ragged_none (expected lineno : Nat) (ls : List (List (Option ℚ)))
    (h : ∀ l ∈ ls, l.length ≤ expected) :
    find_ragged expected lineno ls = none := by
  induction ls generalizing lineno with
  | nil => rfl
  | cons l rest ih =>
    rw [find_ragged, if_neg (not_lt.mpr (h l (List.mem_cons_self _ _)))]
    exact ih _ (fun p hp => h p (List.mem_cons_of_mem _ hp))

theorem find_ragged_first (expected lineno : Nat) (pre post : List (List (Option ℚ)))
    (l : List (Option ℚ)) (hpre : ∀ p ∈ pre, p.length ≤ expected)
    (hl : expected < l.length) :
    find_ragged expected lineno (pre ++ l :: post) = some (pre.length + lineno, l.length) := by
  induction pre generalizing lineno with
  | nil =>
    rw [List.nil_append, find_ragged, if_pos hl, List.length_nil, Nat.zero_add]
  | cons p pre ih =>
    rw [List.cons_append, find_ragged,
      if_neg (not_lt.mpr (hpre p (List.mem_cons_self _ _))),
      ih _ (fun q hq => hpre q (List.mem_cons_of_mem _ hq))]
    congr 1
    simp
    omega

/-- C8 amended: the loader enforces no exactly-26-numeric-fields constraint and
raises no DataFormatError: non-numeric fields load as-is and short lines are
NaN-padded into 26-column rows, with the implicit index width fixed once by the
first line's field count. On nonempty input the one failing path is the pandas
ParserError, raised exactly when a later line has more fields than the first
line and naming the first offending 1-based line number; an empty input raises
EmptyDataError. -/
theorem loader_parse_spec (first : List (Option ℚ)) (rest : List (List (Option ℚ))) :
    ((∀ l ∈ rest, l.length ≤ first.length) →
      ∃ rows, load_raw_data (first :: rest) = Except.ok rows ∧
        rows.length = rest.length + 1 ∧
        ∀ r ∈ rows, r.length = NUM_COLUMNS) ∧
    (∀ pre l post, rest = pre ++ l :: post → first.length < l.length →
      (∀ p ∈ pre, p.length ≤ first.length) →
      load_raw_data (first :: rest) =
        Except.error (pre.length + 2,
          "Expected " ++ toString first.length ++ " fields, saw " ++ toString l.length)) ∧
    load_raw_data ([] : List (List (Option ℚ))) =
      Except.error (0, "No columns to parse from file") := by
  have hnum : NUM_COLUMNS = 26 := rfl
  refine ⟨?_, ?_, rfl⟩
  · intro h
    rw [load_raw_data, find_ragged_none _ _ _ h]
    refine ⟨_, rfl, by simp, ?_⟩
    intro r hr
    rw [List.mem_map] at hr
    obtain ⟨fs, hfs, hr2⟩ := hr
    have hfs_le : fs.length ≤ first.length := by
      rcases List.mem_cons.mp hfs with rfl | hmem
      · exact le_refl _
      · exact h fs hmem
    rw [← hr2]
    simp [parse_line]
    omega
  · intro pre l post hrest hl hpre
    rw [load_raw_data, hrest, find_ragged_first _ _ _ _ _ hpre hl]

end Turbofan
